import Mathlib

/-!
Shallow embedding of the core of `ic_netprobe.py` and `api.py`
(GeoddHQ/ic-netprobe): node registry sync, measurement lifecycle driver,
health classification, chat notification retry, reporting aggregation and
the failing-nodes query.  Python dicts with optional keys are modelled as
structures of `Option` fields; `dict.get(k, d)` becomes `Option.getD`;
float statistics are modelled as exact rationals; exception-raising code is
modelled with `Except`/`Option`.
-/

namespace ICNetProbe

/-- One probe-location statistics dict (`stats`), as consumed by the code:
every field is read with `stats.get(key, default)` or guarded by
a `key in stats` check, so each field is optional. -/
structure Stats where
  loss  : Option ℚ := none
  avg   : Option ℚ := none
  min   : Option ℚ := none
  max   : Option ℚ := none
  total : Option ℕ := none
  deriving Repr, DecidableEq

/-- Reads `stats.get('loss', 0)`. -/
def Stats.lossD (s : Stats) : ℚ := s.loss.getD 0

/-- Reads `stats.get('avg', 0)`. -/
def Stats.avgD (s : Stats) : ℚ := s.avg.getD 0

/-- The probe location descriptor (`probe` dict): only `continent` and
`country` are read, both via `.get`. -/
structure ProbeLoc where
  continent : Option String := none
  country   : Option String := none
  deriving Repr, DecidableEq

/-- The `result` sub-dict of a probe record, which may hold a nested
`stats` dict (`probe_result['result'].get('stats', {})`). -/
structure ResEntry where
  stats : Option Stats := none
  deriving Repr, DecidableEq

/-- One entry of a measurement's `results` list.  The two source files read
statistics at two different places: `send_google_chat_notification` and
`log_measurement_result` use the nested `probe_result['result']['stats']`,
while `generate_daily_report` and `api.py`'s `get_failing_nodes` read
`probe_result['stats']` directly; both keys are optional. -/
structure ProbeRecord where
  probe       : Option ProbeLoc := none
  resultEntry : Option ResEntry := none
  stats       : Option Stats := none
  deriving Repr, DecidableEq

/-- Chained lookup `r.get('result', {}).get('stats', {})`, as used by the
notification and CLI-logging paths, collapsing any missing key to an empty
stats dict. -/
def ProbeRecord.chainStats (r : ProbeRecord) : Stats :=
  match r.resultEntry with
  | some re =>
    match re.stats with
    | some s => s
    | none => {}
  | none => {}

/-- A completed measurement payload: the `results` key is optional
(`if 'results' in result`). -/
structure Measurement where
  status  : String := "finished"
  results : Option (List ProbeRecord) := none
  deriving Repr, DecidableEq

/-! ## Health classification (`log_measurement_result`, lines 345–353)

The per-record verdict computed when rendering the CLI table:
`Failed` when `stats.get('loss', 0) > 0`, else `High Latency` when
`stats.get('avg', 0) > 1000`, else `OK`. -/

inductive Verdict where
  | OK
  | HighLatency
  | Failed
  deriving Repr, DecidableEq

/-- Verdict computed per probe-location record in `log_measurement_result`:
the `if stats.get('loss', 0) > 0 ... elif stats.get('avg', 0) > 1000 ...`
chain. -/
def recordVerdict (s : Stats) : Verdict :=
  if s.lossD > 0 then .Failed
  else if s.avgD > 1000 then .HighLatency
  else .OK

/-! ## Node registry sync (`fetch_nodes`, lines 75–139) -/

/-- One raw node descriptor from the directory response.  `isDict` models
the `isinstance(node, dict)` guard; the identity and address keys are the
required ones, the rest are read with `.get`. -/
structure RawNode where
  isDict     : Bool := true
  node_id    : Option String := none
  ip_address : Option String := none
  region     : Option String := none
  dc_name    : Option String := none
  status     : Option String := none
  node_type  : Option String := none
  deriving Repr, DecidableEq

/-- A normalized node record as appended by `fetch_nodes`. -/
structure NodeRec where
  node_id   : String
  ipv6      : String
  region    : Option String := none
  dc_name   : Option String := none
  status    : Option String := none
  node_type : Option String := none
  deriving Repr, DecidableEq

/-- The possible shapes of the directory response as the code
distinguishes them: a raised request/JSON exception (caught, returns `[]`),
a non-dict body, a dict without the `nodes` key, or a dict with a `nodes`
list. -/
inductive DirResponse where
  | requestError
  | jsonError
  | notDict
  | dictWithoutNodes
  | nodesList (nodes : List RawNode)
  deriving Repr, DecidableEq

/-- The per-descriptor guard of `fetch_nodes`:
`isinstance(node, dict) and 'node_id' in node and 'ip_address' in node`,
and on success the normalized record it appends. -/
def normalizeNode (n : RawNode) : Option NodeRec :=
  if n.isDict then
    match n.node_id, n.ip_address with
    | some nid, some ip =>
      some { node_id := nid, ipv6 := ip, region := n.region,
             dc_name := n.dc_name, status := n.status,
             node_type := n.node_type }
    | _, _ => none
  else none

/-- Function `fetch_nodes`: exceptions and malformed shapes yield `[]`; otherwise
the loop over `data['nodes']` appends the normalized record of every
descriptor passing the guard. -/
def fetch_nodes (resp : DirResponse) : List NodeRec :=
  match resp with
  | .requestError => []
  | .jsonError => []
  | .notDict => []
  | .dictWithoutNodes => []
  | .nodesList nodes => nodes.filterMap normalizeNode

/-- Claim-side description of which descriptors are kept: a dict with both
an identifier and an address. -/
def RawNode.wellFormed (n : RawNode) : Bool :=
  n.isDict && n.node_id.isSome && n.ip_address.isSome

/-! ## Polling (`poll_measurement`, lines 204–221)

The `while True` loop polls the provider once per second until the returned
status is `"finished"`.  The environment is the sequence of provider
responses, one per poll; the loop itself has no bound, so it is embedded
with explicit fuel: `none` means the loop has not returned within that many
polls, for the unbounded source loop that is non-termination. -/

/-- One poll response: a status string and an opaque payload standing for
the rest of the JSON body. -/
structure PollResponse where
  status  : String
  payload : ℕ := 0
  deriving Repr, DecidableEq

/-- The polling loop, from poll index `i`, with at most `fuel` polls
remaining: return the response as soon as its status is `"finished"`,
otherwise sleep and poll again. -/
def pollFrom (resp : ℕ → PollResponse) : ℕ → ℕ → Option PollResponse
  | 0, _ => none
  | fuel + 1, i =>
    if (resp i).status = "finished" then some (resp i)
    else pollFrom resp fuel (i + 1)

/-- Function `poll_measurement`: the loop started at the first poll. -/
def poll_measurement (resp : ℕ → PollResponse) (fuel : ℕ) : Option PollResponse :=
  pollFrom resp fuel 0

/-! ## Chat notification retry (`send_google_chat_notification`, lines 306–323)

The send is attempted; an `HTTPError` with status 429 while `attempt < 5`
sleeps `(2 ** attempt) * 1000` milliseconds and recurses with
`attempt + 1`; any other failure (other HTTP status, other exception, or
429 at `attempt >= 5`) is logged and the function returns.  The environment
is the outcome of the send at each attempt number. -/

inductive SendOutcome where
  | success
  | httpError (status : ℕ)
  | otherError
  deriving Repr, DecidableEq

/-- Whether the outcome at this attempt triggers a retry:
`e.response.status_code == 429 and attempt < 5`. -/
def retries (o : SendOutcome) (attempt : ℕ) : Bool :=
  match o with
  | .httpError status => status = 429 && attempt < 5
  | _ => false

/-- The sequence of backoff sleeps (in milliseconds) performed by
`send_google_chat_notification` when the send at attempt `n` has outcome
`outcome n`, starting from attempt number `attempt`: each retry sleeps
`(2 ** attempt) * 1000` ms before recursing at `attempt + 1`. -/
def chatBackoffDelays (outcome : ℕ → SendOutcome) (attempt : ℕ) : List ℕ :=
  if h : retries (outcome attempt) attempt then
    (2 ^ attempt * 1000) :: chatBackoffDelays outcome (attempt + 1)
  else []
  termination_by 5 - attempt
  decreasing_by
    simp only [retries] at h
    cases hov : outcome attempt with
    | httpError s =>
      rw [hov] at h
      rcases Bool.and_eq_true _ _ |>.mp h with ⟨_, h2⟩
      have := of_decide_eq_true h2
      omega
    | success => rw [hov] at h; simp at h
    | otherError => rw [hov] at h; simp at h

/-- Attempt numbers at which a send is actually performed, starting from
attempt `attempt` (the initial call from `log_measurement_result` uses the
default `attempt = 1`). -/
def chatAttempts (outcome : ℕ → SendOutcome) (attempt : ℕ) : List ℕ :=
  if h : retries (outcome attempt) attempt then
    attempt :: chatAttempts outcome (attempt + 1)
  else [attempt]
  termination_by 5 - attempt
  decreasing_by
    simp only [retries] at h
    cases hov : outcome attempt with
    | httpError s =>
      rw [hov] at h
      rcases Bool.and_eq_true _ _ |>.mp h with ⟨_, h2⟩
      have := of_decide_eq_true h2
      omega
    | success => rw [hov] at h; simp at h
    | otherError => rw [hov] at h; simp at h

/-! ## Chat alert message sections (`send_google_chat_notification`,
lines 250–294)

All statistics in this function are read through the chained lookup
`r.get('result', {}).get('stats', {})`. -/

/-- Counter `failed_probes` (line 251): the count of records with positive loss. -/
def failedProbesCount (rs : List ProbeRecord) : ℕ :=
  rs.countP fun r => r.chainStats.lossD > 0

/-- The records enumerated under the *Failed Probes* section
(lines 284–288): those with `loss > 0`. -/
def failedSection (rs : List ProbeRecord) : List ProbeRecord :=
  rs.filter fun r => r.chainStats.lossD > 0

/-- List `high_latency_probes` (lines 260–264) and the *High Latency Probes*
section built from it (lines 291–294): records with `avg > 1000`,
with no condition on loss. -/
def highLatencySection (rs : List ProbeRecord) : List ProbeRecord :=
  rs.filter fun r => r.chainStats.avgD > 1000

/-- The branch condition at line 267: the detailed alert (with the two
sections) is emitted when `failed_probes > 0 or high_latency_probes`. -/
def alertsIssues (rs : List ProbeRecord) : Bool :=
  failedProbesCount rs > 0 || !(highLatencySection rs).isEmpty

/-! ## Measurement cycle driver (`run_measurement_cycle`, lines 396–447)

The per-node lifecycle (create, poll, log/classify/notify, store) is one
opaque action that either completes or raises; the `try` block also holds
the pacing sleep (`if index < total_nodes: time.sleep(2)`), and the
`except` clause logs and continues with the next node. -/

/-- Observable events of one cycle: a node attempted (with whether its
lifecycle completed), and a pacing sleep (seconds). -/
inductive CycleEvent where
  | attempted (node_id : String) (ok : Bool)
  | pacingSleep (seconds : ℕ)
  deriving Repr, DecidableEq

/-- The `for index, (node_id, ipv6) in enumerate(stored_nodes, 1)` loop:
`lifecycle` is the per-node body up to the sleep; on success the sleep runs
when `index < total`; on an exception the `except` branch skips straight to
the next node. -/
def cycleLoop (lifecycle : String → Except String Unit) (total : ℕ) :
    ℕ → List (String × String) → List CycleEvent
  | _, [] => []
  | index, (node_id, _ipv6) :: rest =>
    match lifecycle node_id with
    | .ok _ =>
      .attempted node_id true ::
        ((if index < total then [.pacingSleep 2] else []) ++
          cycleLoop lifecycle total (index + 1) rest)
    | .error _ =>
      .attempted node_id false :: cycleLoop lifecycle total (index + 1) rest

/-- Function `run_measurement_cycle` over the stored node list: the loop with
`total_nodes = len(stored_nodes)` and `enumerate(..., 1)`. -/
def run_measurement_cycle (lifecycle : String → Except String Unit)
    (stored_nodes : List (String × String)) : List CycleEvent :=
  cycleLoop lifecycle stored_nodes.length 1 stored_nodes

/-- The node ids attempted during a cycle, in order. -/
def attemptedIds (events : List CycleEvent) : List String :=
  events.filterMap fun e =>
    match e with
    | .attempted nid _ => some nid
    | .pacingSleep _ => none

/-- The number of pacing sleeps in a cycle. -/
def sleepCount (events : List CycleEvent) : ℕ :=
  events.countP fun e =>
    match e with
    | .attempted _ _ => false
    | .pacingSleep _ => true

/-! ## Reporting aggregator (`generate_daily_report`, lines 483–506)

Per node, the loop walks all of the node's measurements in the window and,
for every probe record carrying a direct `stats` key, bumps
`failed_measurements` when `stats.get('loss', 0) > 0` and accumulates
`stats['avg']` into `total_latency` / `latency_count` when `'avg' in
stats` — with no condition on loss. -/

/-- The three loop accumulators of the per-node statistics loop. -/
structure ReportAcc where
  failed_measurements : ℕ := 0
  total_latency : ℚ := 0
  latency_count : ℕ := 0
  deriving Repr, DecidableEq

/-- The body of the inner loop (`for probe_result in result['results']`):
guarded by `if 'stats' in probe_result`. -/
def reportStepRecord (acc : ReportAcc) (r : ProbeRecord) : ReportAcc :=
  match r.stats with
  | none => acc
  | some s =>
    let acc1 :=
      if s.lossD > 0 then
        { acc with failed_measurements := acc.failed_measurements + 1 }
      else acc
    match s.avg with
    | some a =>
      { acc1 with total_latency := acc1.total_latency + a,
                  latency_count := acc1.latency_count + 1 }
    | none => acc1

/-- The body of the outer loop (`for measurement in node['measurements']`):
guarded by `if 'results' in result`. -/
def reportStepMeasurement (acc : ReportAcc) (m : Measurement) : ReportAcc :=
  match m.results with
  | none => acc
  | some rs => rs.foldl reportStepRecord acc

/-- The `node['stats']` record written by `generate_daily_report`. -/
structure NodeStats where
  total_measurements : ℕ
  failed_measurements : ℕ
  failure_rate : ℚ
  avg_latency : ℚ
  deriving Repr, DecidableEq

/-- The per-node statistics computed by `generate_daily_report` from the
node's measurements in the 24h window. -/
def generate_daily_report_stats (ms : List Measurement) : NodeStats :=
  let acc := ms.foldl reportStepMeasurement {}
  { total_measurements := ms.length,
    failed_measurements := acc.failed_measurements,
    failure_rate :=
      if ms.length > 0 then
        (acc.failed_measurements : ℚ) / (ms.length : ℚ) * 100
      else 0,
    avg_latency :=
      if acc.latency_count > 0 then
        acc.total_latency / (acc.latency_count : ℚ)
      else 0 }

/-- Claim-side view: the `stats` dicts of all probe records (with a direct
`stats` key) across a list of measurements, in order. -/
def reportRecords (ms : List Measurement) : List Stats :=
  (ms.filterMap Measurement.results).foldr
    (fun rs acc => rs.filterMap ProbeRecord.stats ++ acc) []

/-- Claim-side view: the number of probe-location records with positive
loss across the measurements. -/
def lossyRecordCount (ms : List Measurement) : ℕ :=
  (reportRecords ms).countP fun s => s.lossD > 0

/-- Claim-side view: the `avg` values of all records that have one,
regardless of loss. -/
def allAvgValues (ms : List Measurement) : List ℚ :=
  (reportRecords ms).filterMap Stats.avg

/-- Claim-side view (the spec's words for the aggregator): the `avg`
values of records with zero loss only. -/
def zeroLossAvgValues (ms : List Measurement) : List ℚ :=
  ((reportRecords ms).filter fun s => s.lossD = 0).filterMap Stats.avg

/-! ## Failing-nodes query (`api.py` `get_failing_nodes`, lines 64–112)

Per node, the measurements inside the lookback window are scanned; the
node is flagged when any probe record (with a direct `stats` key) of any
such measurement has `loss > 0 or avg > 1000`. -/

/-- The innermost test of `get_failing_nodes`: the record has a `stats`
key and `stats.get('loss', 0) > 0 or stats.get('avg', 0) > 1000`. -/
def recordFailing (r : ProbeRecord) : Bool :=
  match r.stats with
  | some s => decide (s.lossD > 0) || decide (s.avgD > 1000)
  | none => false

/-- The inner two loops with their `break`: does this measurement contain
a failing record? -/
def measurementAnyFailing (m : Measurement) : Bool :=
  match m.results with
  | none => false
  | some rs => rs.any recordFailing

/-- The `has_failure` flag after the loop over the node's in-window
measurements. -/
def nodeHasFailure (ms : List Measurement) : Bool :=
  ms.foldl (fun hf m => hf || measurementAnyFailing m) false

/-- Function `get_failing_nodes` over the per-node grouping of in-window
measurements: keeps exactly the nodes whose flag is set. -/
def get_failing_nodes (nodes : List (String × List Measurement)) :
    List (String × List Measurement) :=
  nodes.filter fun nm => nodeHasFailure nm.2

/-! ## Claim-side auxiliary definitions and concrete inputs -/

/-- The normalized record produced by `fetch_nodes` for a kept descriptor
(its required fields are present when `RawNode.wellFormed`). -/
def normalizedOf (n : RawNode) : NodeRec :=
  { node_id := n.node_id.getD "", ipv6 := n.ip_address.getD "",
    region := n.region, dc_name := n.dc_name, status := n.status,
    node_type := n.node_type }

/-- Spec-side event trace for an exception-free cycle: each node's
lifecycle, with one pacing sleep after every node except the last. -/
def pacedEvents : List (String × String) → List CycleEvent
  | [] => []
  | [(node_id, _)] => [.attempted node_id true]
  | (node_id, _) :: next :: rest =>
    .attempted node_id true :: .pacingSleep 2 :: pacedEvents (next :: rest)

/-- A provider response sequence that never reaches `"finished"`. -/
def neverFinished : ℕ → PollResponse := fun _ => { status := "in-progress" }

/-- A provider response sequence that reaches `"finished"` on the third
poll. -/
def finishesAtTwo : ℕ → PollResponse := fun n =>
  if n = 2 then { status := "finished", payload := 7 }
  else { status := "in-progress" }

/-- A send that is rate-limited on every attempt. -/
def always429 : ℕ → SendOutcome := fun _ => .httpError 429

/-- A send that fails with a non-rate-limit HTTP status on every
attempt. -/
def always500 : ℕ → SendOutcome := fun _ => .httpError 500

/-- Stats of a record with zero loss and the given average. -/
def okStats (a : ℚ) : Stats := { loss := some 0, avg := some a }

/-- A probe record carrying its stats under the direct `stats` key, as
`generate_daily_report` and `get_failing_nodes` read them. -/
def directRecord (s : Stats) : ProbeRecord := { stats := some s }

/-- The spec's example input for the aggregator's average latency:
one measurement whose records have losses `[0, 0, 5]` and averages
`[100, 200, 999]`. -/
def lossyAvgMeasurement : Measurement :=
  { results := some
      [ directRecord (okStats 100),
        directRecord (okStats 200),
        directRecord { loss := some 5, avg := some 999 } ] }

/-- A healthy measurement: one record, zero loss, 50 ms average. -/
def healthyMeasurement : Measurement :=
  { results := some [directRecord (okStats 50)] }

/-- A measurement containing exactly one failing record (loss 3%). -/
def oneFailureMeasurement : Measurement :=
  { results := some
      [ directRecord { loss := some 3, avg := some 80 },
        directRecord (okStats 60) ] }

/-- The spec's failure-rate example: 4 measurements, exactly one of which
contains exactly one failing record. -/
def fourMeasurements : List Measurement :=
  [oneFailureMeasurement, healthyMeasurement, healthyMeasurement,
   healthyMeasurement]

/-- A per-node lifecycle in which node `"A"` raises (its create request
fails) and every other node completes. -/
def lifecycleFailsA : String → Except String Unit := fun node_id =>
  if node_id = "A" then .error "create request failed" else .ok ()

/-- A per-node lifecycle in which every node completes. -/
def lifecycleAllOk : String → Except String Unit := fun _ => .ok ()

/-- A chat-path probe record with both positive loss and high average
latency, its stats nested under the `result` key. -/
def lossyHighLatencyRecord : ProbeRecord :=
  { probe := some { continent := some "EU", country := some "DE" },
    resultEntry := some { stats := some { loss := some 5, avg := some 1500 } } }

/-! ## Theorems -/

/-- C1: per probe-location record, the verdict is `Failed` if loss > 0
(regardless of average RTT); otherwise `HighLatency` if average RTT >
1000 ms; otherwise `OK`; in particular a record with loss > 0 and average
RTT > 1000 is `Failed`, not `HighLatency`. -/
theorem c1_record_verdict (s : Stats) :
    (s.lossD > 0 → recordVerdict s = .Failed) ∧
    (s.lossD ≤ 0 → s.avgD > 1000 → recordVerdict s = .HighLatency) ∧
    (s.lossD ≤ 0 → s.avgD ≤ 1000 → recordVerdict s = .OK) ∧
    (s.lossD > 0 → s.avgD > 1000 →
      recordVerdict s = .Failed ∧ recordVerdict s ≠ .HighLatency) := by
  unfold recordVerdict
  refine ⟨fun h => ?_, fun h1 h2 => ?_, fun h1 h2 => ?_, fun h h2 => ?_⟩
  · rw [if_pos h]
  · rw [if_neg (not_lt.mpr h1), if_pos h2]
  · rw [if_neg (not_lt.mpr h1), if_neg (not_lt.mpr h2)]
  · rw [if_pos h]
    exact ⟨rfl, by simp⟩

/-- C1 witness: a record with 5% loss and 2000 ms average RTT is
classified `Failed` and not `HighLatency`. -/
theorem c1_record_verdict_witness :
    recordVerdict { loss := some 5, avg := some 2000 } = .Failed ∧
    recordVerdict { loss := some 5, avg := some 2000 } ≠ .HighLatency :=
  (c1_record_verdict { loss := some 5, avg := some 2000 }).2.2.2
    (by norm_num [Stats.lossD]) (by norm_num [Stats.avgD])

/-- The `fetch_nodes` per-descriptor normalization keeps exactly the
descriptors that are dicts with both required keys. -/
theorem normalizeNode_eq_ite (n : RawNode) :
    normalizeNode n =
      if n.wellFormed then some (normalizedOf n) else none := by
  rcases n with ⟨d, nid, ip, rg, dc, st, nt⟩
  cases d <;> cases nid <;> cases ip <;>
    simp [normalizeNode, RawNode.wellFormed, normalizedOf]

/-- C7: node registry sync returns exactly the normalized records of the
descriptors carrying both an identifier and an address (one missing either
is dropped, the rest preserved); a response that raised, is not a dict, or
lacks the `nodes` key yields `[]`, as does an empty node collection —
`fetch_nodes` is total, so none of these raises. -/
theorem c7_fetch_nodes :
    fetch_nodes .requestError = [] ∧
    fetch_nodes .jsonError = [] ∧
    fetch_nodes .notDict = [] ∧
    fetch_nodes .dictWithoutNodes = [] ∧
    fetch_nodes (.nodesList []) = [] ∧
    ∀ l, fetch_nodes (.nodesList l) =
      (l.filter RawNode.wellFormed).map normalizedOf := by
  refine ⟨rfl, rfl, rfl, rfl, rfl, fun l => ?_⟩
  induction l with
  | nil => rfl
  | cons n rest ih =>
    simp only [fetch_nodes] at ih ⊢
    rw [List.filterMap_cons, List.filter_cons, normalizeNode_eq_ite]
    by_cases h : n.wellFormed
    · simp [h, ih]
    · simp [h, ih]

/-- If no poll ever reports `"finished"`, the loop never returns,
whatever the fuel. -/
theorem pollFrom_eq_none (resp : ℕ → PollResponse)
    (h : ∀ n, (resp n).status ≠ "finished") :
    ∀ fuel i, pollFrom resp fuel i = none := by
  intro fuel
  induction fuel with
  | zero => intro i; rfl
  | succ fuel ih =>
    intro i
    simp only [pollFrom, if_neg (h i)]
    exact ih (i + 1)

/-- Any value returned by the loop has terminal status. -/
theorem pollFrom_some_status (resp : ℕ → PollResponse) :
    ∀ fuel i r, pollFrom resp fuel i = some r → r.status = "finished" := by
  intro fuel
  induction fuel with
  | zero => intro i r h; cases h
  | succ fuel ih =>
    intro i r h
    by_cases hc : (resp i).status = "finished"
    · simp only [pollFrom, if_pos hc] at h
      cases h
      exact hc
    · simp only [pollFrom, if_neg hc] at h
      exact ih (i + 1) r h

/-- The loop returns the response of the first terminal poll. -/
theorem pollFrom_first (resp : ℕ → PollResponse) :
    ∀ fuel i k, i ≤ k → k - i < fuel → (resp k).status = "finished" →
      (∀ j, i ≤ j → j < k → (resp j).status ≠ "finished") →
      pollFrom resp fuel i = some (resp k) := by
  intro fuel
  induction fuel with
  | zero => intro i k _ hlt _ _; omega
  | succ fuel ih =>
    intro i k hik hlt hfin hbefore
    rcases eq_or_lt_of_le hik with heq | hi
    · subst heq
      simp only [pollFrom, if_pos hfin]
    · have hne : (resp i).status ≠ "finished" := hbefore i le_rfl hi
      simp only [pollFrom, if_neg hne]
      exact ih (i + 1) k (by omega) (by omega) hfin
        (fun j h1 h2 => hbefore j (by omega) h2)

/-- C8: `poll_measurement` returns the provider's response exactly when a
poll reports status `"finished"` (the first such poll), and no iteration
bound is enforced: on a status sequence that never reaches `"finished"`
the loop does not return, however many polls it is allowed. -/
theorem c8_poll_measurement (resp : ℕ → PollResponse) :
    ((∀ n, (resp n).status ≠ "finished") →
      ∀ fuel, poll_measurement resp fuel = none) ∧
    (∀ fuel r, poll_measurement resp fuel = some r → r.status = "finished") ∧
    (∀ k fuel, k < fuel → (resp k).status = "finished" →
      (∀ j, j < k → (resp j).status ≠ "finished") →
      poll_measurement resp fuel = some (resp k)) := by
  refine ⟨fun h fuel => pollFrom_eq_none resp h fuel 0,
    fun fuel r h => pollFrom_some_status resp fuel 0 r h,
    fun k fuel hk hfin hbefore => ?_⟩
  exact pollFrom_first resp fuel 0 k (Nat.zero_le k) (by omega) hfin
    (fun j _ h2 => hbefore j h2)

/-- C8 witness: on a sequence that never finishes, nine polls return
nothing; on a sequence finishing at the third poll, the loop returns that
poll's response. -/
theorem c8_poll_measurement_witness :
    poll_measurement neverFinished 9 = none ∧
    poll_measurement finishesAtTwo 9 =
      some { status := "finished", payload := 7 } := by
  constructor
  · exact (c8_poll_measurement neverFinished).1
      (fun n => by simp [neverFinished]) 9
  · have h := (c8_poll_measurement finishesAtTwo).2.2 2 9 (by norm_num)
      (by decide) (by decide)
    simpa [finishesAtTwo] using h

/-- One unfolding of the backoff recursion. -/
theorem chatBackoffDelays_unfold (o : ℕ → SendOutcome) (a : ℕ) :
    chatBackoffDelays o a =
      if retries (o a) a then
        2 ^ a * 1000 :: chatBackoffDelays o (a + 1)
      else [] := by
  rw [chatBackoffDelays.eq_def]
  by_cases h : retries (o a) a
  · rw [dif_pos h, if_pos h]
  · rw [dif_neg h, if_neg h]

/-- One unfolding of the attempt recursion. -/
theorem chatAttempts_unfold (o : ℕ → SendOutcome) (a : ℕ) :
    chatAttempts o a =
      if retries (o a) a then a :: chatAttempts o (a + 1) else [a] := by
  rw [chatAttempts.eq_def]
  by_cases h : retries (o a) a
  · rw [dif_pos h, if_pos h]
  · rw [dif_neg h, if_neg h]

/-- At attempt 5 the guard `attempt < 5` fails, so no further sleep is
performed whatever the outcome. -/
theorem chatBackoffDelays_stop5 (o : ℕ → SendOutcome) :
    chatBackoffDelays o 5 = [] := by
  rw [chatBackoffDelays_unfold]
  cases h : o 5 <;> simp [retries, h]

/-- At attempt 5 the send is performed once more and the function
returns. -/
theorem chatAttempts_stop5 (o : ℕ → SendOutcome) :
    chatAttempts o 5 = [5] := by
  rw [chatAttempts_unfold]
  cases h : o 5 <;> simp [retries, h]

/-- The backoff sleep list from the initial attempt is one of five
prefixes of `[2000, 4000, 8000, 16000]` (milliseconds). -/
theorem chatBackoffDelays_cases (o : ℕ → SendOutcome) :
    chatBackoffDelays o 1 = [] ∨ chatBackoffDelays o 1 = [2000] ∨
    chatBackoffDelays o 1 = [2000, 4000] ∨
    chatBackoffDelays o 1 = [2000, 4000, 8000] ∨
    chatBackoffDelays o 1 = [2000, 4000, 8000, 16000] := by
  rw [chatBackoffDelays_unfold]
  by_cases r1 : retries (o 1) 1
  · rw [if_pos r1, chatBackoffDelays_unfold]
    by_cases r2 : retries (o 2) 2
    · rw [if_pos r2, chatBackoffDelays_unfold]
      by_cases r3 : retries (o 3) 3
      · rw [if_pos r3, chatBackoffDelays_unfold]
        by_cases r4 : retries (o 4) 4
        · rw [if_pos r4, chatBackoffDelays_stop5]
          decide
        · rw [if_neg r4]; decide
      · rw [if_neg r3]; decide
    · rw [if_neg r2]; decide
  · rw [if_neg r1]; decide

/-- The attempt list from the initial attempt is one of the five prefixes
of `[1, 2, 3, 4, 5]` ending at the first non-retrying outcome. -/
theorem chatAttempts_cases (o : ℕ → SendOutcome) :
    chatAttempts o 1 = [1] ∨ chatAttempts o 1 = [1, 2] ∨
    chatAttempts o 1 = [1, 2, 3] ∨ chatAttempts o 1 = [1, 2, 3, 4] ∨
    chatAttempts o 1 = [1, 2, 3, 4, 5] := by
  rw [chatAttempts_unfold]
  by_cases r1 : retries (o 1) 1
  · rw [if_pos r1, chatAttempts_unfold]
    by_cases r2 : retries (o 2) 2
    · rw [if_pos r2, chatAttempts_unfold]
      by_cases r3 : retries (o 3) 3
      · rw [if_pos r3, chatAttempts_unfold]
        by_cases r4 : retries (o 4) 4
        · rw [if_pos r4, chatAttempts_stop5]
          decide
        · rw [if_neg r4]; decide
      · rw [if_neg r3]; decide
    · rw [if_neg r2]; decide
  · rw [if_neg r1]; decide

/-- C3 counterexample: under permanent rate-limiting the dispatcher
performs exactly 4 retries (5 sends in total, at attempts 1–5), sleeping
2000, 4000, 8000 and 16000 ms — not 5 retries, and the first backoff unit
is 2 seconds, not hundreds of milliseconds. -/
theorem c3_counterexample :
    chatBackoffDelays always429 1 = [2000, 4000, 8000, 16000] ∧
    (chatBackoffDelays always429 1).length = 4 ∧
    (chatBackoffDelays always429 1).length ≠ 5 ∧
    chatAttempts always429 1 = [1, 2, 3, 4, 5] := by
  have hd : chatBackoffDelays always429 1 = [2000, 4000, 8000, 16000] := by
    rw [chatBackoffDelays_unfold, chatBackoffDelays_unfold,
      chatBackoffDelays_unfold, chatBackoffDelays_unfold,
      chatBackoffDelays_unfold]
    norm_num [retries, always429]
  have ha : chatAttempts always429 1 = [1, 2, 3, 4, 5] := by
    rw [chatAttempts_unfold, chatAttempts_unfold, chatAttempts_unfold,
      chatAttempts_unfold, chatAttempts_unfold]
    norm_num [retries, always429]
  exact ⟨hd, by rw [hd]; rfl, by rw [hd]; decide, ha⟩

/-- C3 (amended): a rate-limited (HTTP 429) send is retried up to 4 times
(5 attempts in total), each retry preceded by a sleep; the sleeps strictly
increase and double each attempt, starting from 2000 ms (base unit
1000 ms, not hundreds of milliseconds); after the 5th attempt the send is
abandoned; a failure with any non-429 status, or a non-HTTP error, is
never retried. -/
theorem c3_chat_retry (outcome : ℕ → SendOutcome) :
    (chatBackoffDelays outcome 1).length ≤ 4 ∧
    (chatAttempts outcome 1).length ≤ 5 ∧
    List.Chain' (fun a b => b = 2 * a ∧ a < b) (chatBackoffDelays outcome 1) ∧
    (∀ d ∈ chatBackoffDelays outcome 1, 2000 ≤ d) ∧
    (∀ s, s ≠ 429 → outcome 1 = .httpError s →
      chatBackoffDelays outcome 1 = []) ∧
    (outcome 1 = .otherError → chatBackoffDelays outcome 1 = []) ∧
    ((∀ n, outcome n = .httpError 429) →
      chatBackoffDelays outcome 1 = [2000, 4000, 8000, 16000] ∧
      chatAttempts outcome 1 = [1, 2, 3, 4, 5]) := by
  have hlen : (chatBackoffDelays outcome 1).length ≤ 4 := by
    rcases chatBackoffDelays_cases outcome with h | h | h | h | h <;>
      rw [h] <;> decide
  have halen : (chatAttempts outcome 1).length ≤ 5 := by
    rcases chatAttempts_cases outcome with h | h | h | h | h <;>
      rw [h] <;> decide
  have hchain :
      List.Chain' (fun a b => b = 2 * a ∧ a < b) (chatBackoffDelays outcome 1) := by
    rcases chatBackoffDelays_cases outcome with h | h | h | h | h <;> rw [h] <;>
      norm_num [List.chain'_cons, List.chain'_singleton]
  have hbase : ∀ d ∈ chatBackoffDelays outcome 1, 2000 ≤ d := by
    rcases chatBackoffDelays_cases outcome with h | h | h | h | h <;>
      rw [h] <;> decide
  have hnon429 : ∀ s, s ≠ 429 → outcome 1 = .httpError s →
      chatBackoffDelays outcome 1 = [] := by
    intro s hs h1
    rw [chatBackoffDelays_unfold, if_neg]
    simp [retries, h1, hs]
  have hother : outcome 1 = .otherError → chatBackoffDelays outcome 1 = [] := by
    intro h1
    rw [chatBackoffDelays_unfold, if_neg]
    simp [retries, h1]
  refine ⟨hlen, halen, hchain, hbase, hnon429, hother, fun hall => ?_⟩
  constructor
  · rw [chatBackoffDelays_unfold, chatBackoffDelays_unfold,
      chatBackoffDelays_unfold, chatBackoffDelays_unfold,
      chatBackoffDelays_unfold]
    norm_num [retries, hall 1, hall 2, hall 3, hall 4, hall 5]
  · rw [chatAttempts_unfold, chatAttempts_unfold, chatAttempts_unfold,
      chatAttempts_unfold, chatAttempts_unfold]
    norm_num [retries, hall 1, hall 2, hall 3, hall 4, hall 5]

/-- C3 witness: a permanently non-rate-limited failure (HTTP 500) is
never retried, and a permanently rate-limited send sleeps
2000, 4000, 8000, 16000 ms over attempts 1–5. -/
theorem c3_chat_retry_witness :
    chatBackoffDelays always500 1 = [] ∧
    chatBackoffDelays always429 1 = [2000, 4000, 8000, 16000] ∧
    chatAttempts always429 1 = [1, 2, 3, 4, 5] :=
  ⟨(c3_chat_retry always500).2.2.2.2.1 500 (by norm_num) rfl,
   ((c3_chat_retry always429).2.2.2.2.2.2 (fun _ => rfl)).1,
   ((c3_chat_retry always429).2.2.2.2.2.2 (fun _ => rfl)).2⟩

/-- Whatever each node's lifecycle does, the loop attempts every node of
the list, in order. -/
theorem attemptedIds_cycleLoop (lifecycle : String → Except String Unit)
    (total : ℕ) :
    ∀ (nodes : List (String × String)) (index : ℕ),
      attemptedIds (cycleLoop lifecycle total index nodes) =
        nodes.map Prod.fst := by
  intro nodes
  induction nodes with
  | nil => intro index; rfl
  | cons p rest ih =>
    intro index
    rcases p with ⟨nid, ip⟩
    cases hl : lifecycle nid with
    | ok u =>
      cases u
      by_cases hi : index < total
      · simp [cycleLoop, hl, hi, attemptedIds, List.filterMap_append] at ih ⊢
        exact ih (index + 1)
      · simp [cycleLoop, hl, hi, attemptedIds, List.filterMap_append] at ih ⊢
        exact ih (index + 1)
    | error e =>
      simp [cycleLoop, hl, attemptedIds] at ih ⊢
      exact ih (index + 1)

/-- C5: a per-node exception anywhere in one node's lifecycle (create,
poll, classify or store) is caught, and every node of the cycle's list is
still attempted, in order — in particular when node A's create request
fails, node B is still processed in the same cycle. -/
theorem c5_cycle_isolation (lifecycle : String → Except String Unit)
    (stored_nodes : List (String × String)) :
    attemptedIds (run_measurement_cycle lifecycle stored_nodes) =
      stored_nodes.map Prod.fst :=
  attemptedIds_cycleLoop lifecycle stored_nodes.length stored_nodes 1

/-- C9 counterexample: over the two-node list `[A, B]` where node A's
lifecycle raises, the cycle performs zero pacing sleeps, not
`n - 1 = 1`. -/
theorem c9_counterexample :
    sleepCount (run_measurement_cycle lifecycleFailsA
      [("A", "a1"), ("B", "b1")]) = 0 ∧
    sleepCount (run_measurement_cycle lifecycleFailsA
      [("A", "a1"), ("B", "b1")]) ≠
      ([("A", "a1"), ("B", "b1")] : List (String × String)).length - 1 := by
  constructor
  · rfl
  · decide

/-- When no node raises, the loop emits each node's lifecycle followed by
one pacing sleep, except after the last node. -/
theorem cycleLoop_paced (lifecycle : String → Except String Unit)
    (total : ℕ) :
    ∀ (nodes : List (String × String)) (index : ℕ),
      (∀ p ∈ nodes, lifecycle p.1 = .ok ()) →
      total + 1 = index + nodes.length →
      cycleLoop lifecycle total index nodes = pacedEvents nodes := by
  intro nodes
  induction nodes with
  | nil => intro index _ _; rfl
  | cons p rest ih =>
    intro index hok htot
    rcases p with ⟨nid, ip⟩
    have hl : lifecycle nid = .ok () := hok (nid, ip) (List.mem_cons_self _ _)
    cases rest with
    | nil =>
      have hi : ¬ index < total := by
        simp only [List.length_cons, List.length_nil] at htot
        omega
      simp [cycleLoop, hl, hi, pacedEvents]
    | cons q rest2 =>
      simp only [List.length_cons] at htot
      have hi : index < total := by omega
      simp only [pacedEvents]
      rw [← ih (index + 1) (fun p hp => hok p (List.mem_cons_of_mem _ hp))
        (by simp only [List.length_cons]; omega)]
      simp only [cycleLoop, hl, if_pos hi]
      simp

/-- A fully paced trace has one sleep per node except the last. -/
theorem sleepCount_pacedEvents :
    ∀ nodes : List (String × String),
      sleepCount (pacedEvents nodes) = nodes.length - 1 := by
  intro nodes
  induction nodes with
  | nil => rfl
  | cons p rest ih =>
    rcases p with ⟨nid, ip⟩
    cases rest with
    | nil => rfl
    | cons q rest2 =>
      simp [pacedEvents, sleepCount, List.countP_cons, List.length_cons]
        at ih ⊢
      omega

/-- C9 (amended): when every node's lifecycle completes without raising,
the driver sleeps the pacing interval exactly once after each node except
the last — `n - 1` sleeps in total; a node whose lifecycle raises is not
followed by a pacing sleep (see the counterexample). -/
theorem c9_pacing (lifecycle : String → Except String Unit)
    (stored_nodes : List (String × String))
    (h : ∀ p ∈ stored_nodes, lifecycle p.1 = .ok ()) :
    run_measurement_cycle lifecycle stored_nodes = pacedEvents stored_nodes ∧
    sleepCount (run_measurement_cycle lifecycle stored_nodes) =
      stored_nodes.length - 1 := by
  have he : run_measurement_cycle lifecycle stored_nodes =
      pacedEvents stored_nodes :=
    cycleLoop_paced lifecycle stored_nodes.length stored_nodes 1 h (by omega)
  exact ⟨he, by rw [he, sleepCount_pacedEvents]⟩

/-- C9 witness: a three-node exception-free cycle sleeps exactly twice,
once between each pair of consecutive nodes. -/
theorem c9_pacing_witness :
    run_measurement_cycle lifecycleAllOk
        [("A", "a1"), ("B", "b1"), ("C", "c1")] =
      [.attempted "A" true, .pacingSleep 2, .attempted "B" true,
       .pacingSleep 2, .attempted "C" true] ∧
    sleepCount (run_measurement_cycle lifecycleAllOk
      [("A", "a1"), ("B", "b1"), ("C", "c1")]) = 2 := by
  have h := c9_pacing lifecycleAllOk [("A", "a1"), ("B", "b1"), ("C", "c1")]
    (fun p _ => rfl)
  exact ⟨by rw [h.1]; rfl, by rw [h.2]; rfl⟩

/-- The records of a prepended measurement come first in the flattened
record view. -/
theorem reportRecords_cons (m : Measurement) (ms : List Measurement) :
    reportRecords (m :: ms) =
      match m.results with
      | none => reportRecords ms
      | some rs => rs.filterMap ProbeRecord.stats ++ reportRecords ms := by
  cases h : m.results <;> simp [reportRecords, List.filterMap_cons, h]

/-- The inner statistics loop of `generate_daily_report`, characterised:
it adds one failure unit per record with positive loss, and accumulates
every present `avg` value, regardless of loss. -/
theorem foldl_reportStepRecord (rs : List ProbeRecord) (acc : ReportAcc) :
    rs.foldl reportStepRecord acc =
      { failed_measurements := acc.failed_measurements +
          ((rs.filterMap ProbeRecord.stats).countP fun s => s.lossD > 0),
        total_latency := acc.total_latency +
          ((rs.filterMap ProbeRecord.stats).filterMap Stats.avg).sum,
        latency_count := acc.latency_count +
          ((rs.filterMap ProbeRecord.stats).filterMap Stats.avg).length } := by
  induction rs generalizing acc with
  | nil => cases acc; simp
  | cons r rest ih =>
    rw [List.foldl_cons, ih]
    cases hs : r.stats with
    | none => simp [reportStepRecord, hs, List.filterMap_cons]
    | some s =>
      by_cases hl : s.lossD > 0 <;> cases ha : s.avg <;> cases acc <;>
        simp [reportStepRecord, hs, ha, hl, List.filterMap_cons,
          List.countP_cons, ReportAcc.mk.injEq] <;>
        (repeat' apply And.intro) <;>
        first
        | trivial
        | omega
        | ring

/-- The outer statistics loop of `generate_daily_report`,
characterised. -/
theorem foldl_reportStepMeasurement (ms : List Measurement) (acc : ReportAcc) :
    ms.foldl reportStepMeasurement acc =
      { failed_measurements := acc.failed_measurements + lossyRecordCount ms,
        total_latency := acc.total_latency + (allAvgValues ms).sum,
        latency_count := acc.latency_count + (allAvgValues ms).length } := by
  induction ms generalizing acc with
  | nil => cases acc; simp [lossyRecordCount, allAvgValues, reportRecords]
  | cons m rest ih =>
    rw [List.foldl_cons]
    cases hr : m.results with
    | none =>
      have hstep : reportStepMeasurement acc m = acc := by
        simp [reportStepMeasurement, hr]
      rw [hstep, ih]
      simp only [lossyRecordCount, allAvgValues, reportRecords_cons, hr]
    | some rs =>
      have hstep : reportStepMeasurement acc m = rs.foldl reportStepRecord acc := by
        simp [reportStepMeasurement, hr]
      rw [hstep, foldl_reportStepRecord, ih]
      cases acc
      simp only [lossyRecordCount, allAvgValues, reportRecords_cons, hr,
        List.countP_append, List.filterMap_append, List.sum_append,
        List.length_append, ReportAcc.mk.injEq]
      refine ⟨by omega, by ring, by omega⟩

/-- C2 counterexample: on one measurement whose records have losses
`[0, 0, 5]` and averages `[100, 200, 999]`, `generate_daily_report`
computes an average latency of `(100 + 200 + 999) / 3 = 433`, not the
claimed `(100 + 200) / 2 = 150` — the lossy record's latency is
included. -/
theorem c2_counterexample :
    (generate_daily_report_stats [lossyAvgMeasurement]).avg_latency = 433 ∧
    (generate_daily_report_stats [lossyAvgMeasurement]).avg_latency ≠ 150 := by
  have hv : allAvgValues [lossyAvgMeasurement] = [100, 200, 999] := by
    simp [allAvgValues, reportRecords, lossyAvgMeasurement, directRecord,
      okStats, List.filterMap_cons]
  have h : (generate_daily_report_stats [lossyAvgMeasurement]).avg_latency
      = 433 := by
    unfold generate_daily_report_stats
    rw [foldl_reportStepMeasurement]
    simp [hv]
    norm_num
  exact ⟨h, by rw [h]; norm_num⟩

/-- C2 (amended): the reporting aggregator's per-node average latency is
computed over *all* probe-location records with an `avg` statistic,
including those with loss > 0 — it is their sum divided by their count
(0 when there are none), not the zero-loss-only average. -/
theorem c2_avg_latency (ms : List Measurement) :
    (generate_daily_report_stats ms).avg_latency =
      if 0 < (allAvgValues ms).length then
        (allAvgValues ms).sum / ((allAvgValues ms).length : ℚ)
      else 0 := by
  unfold generate_daily_report_stats
  rw [foldl_reportStepMeasurement]
  simp

/-- C6: the failed-measurement count equals the number of probe-location
records with loss > 0 across all of the node's measurements in the window
(one unit per failing record, not per measurement), the total is the
node's measurement count, and when the node has measurements the failure
rate is failed/total as a percentage. -/
theorem c6_failure_rate (ms : List Measurement) :
    (generate_daily_report_stats ms).total_measurements = ms.length ∧
    (generate_daily_report_stats ms).failed_measurements =
      lossyRecordCount ms ∧
    (0 < ms.length →
      (generate_daily_report_stats ms).failure_rate =
        (lossyRecordCount ms : ℚ) / (ms.length : ℚ) * 100) := by
  unfold generate_daily_report_stats
  rw [foldl_reportStepMeasurement]
  refine ⟨rfl, by simp, fun h => ?_⟩
  simp [h]

/-- C6 witness: a node with 4 measurements, exactly one of which contains
exactly one failing record, has failure rate 25%. -/
theorem c6_failure_rate_witness :
    (generate_daily_report_stats fourMeasurements).failure_rate = 25 := by
  have h := (c6_failure_rate fourMeasurements).2.2 (by decide)
  have hc : lossyRecordCount fourMeasurements = 1 := by decide
  have hl : fourMeasurements.length = 4 := by decide
  rw [h, hc, hl]
  norm_num

/-- Folding disjunctions starting from `b` is `b` or-ed with `any`. -/
theorem foldl_or_any (ms : List Measurement) :
    ∀ b : Bool,
      ms.foldl (fun hf m => hf || measurementAnyFailing m) b =
        (b || ms.any measurementAnyFailing) := by
  induction ms with
  | nil => intro b; simp
  | cons m rest ih =>
    intro b
    rw [List.foldl_cons, ih, List.any_cons]
    simp [Bool.or_assoc]

/-- The per-record test of the failing-nodes query, characterised. -/
theorem recordFailing_iff (r : ProbeRecord) :
    recordFailing r = true ↔
      ∃ s, r.stats = some s ∧ (s.lossD > 0 ∨ s.avgD > 1000) := by
  cases h : r.stats <;> simp [recordFailing, h]

/-- The per-measurement scan of the failing-nodes query,
characterised. -/
theorem measurementAnyFailing_iff (m : Measurement) :
    measurementAnyFailing m = true ↔
      ∃ rs, m.results = some rs ∧ ∃ r ∈ rs, ∃ s, r.stats = some s ∧
        (s.lossD > 0 ∨ s.avgD > 1000) := by
  cases h : m.results <;>
    simp [measurementAnyFailing, h, List.any_eq_true, recordFailing_iff]

/-- The node-level flag of the failing-nodes query, characterised. -/
theorem nodeHasFailure_iff (ms : List Measurement) :
    nodeHasFailure ms = true ↔
      ∃ m ∈ ms, ∃ rs, m.results = some rs ∧ ∃ r ∈ rs, ∃ s,
        r.stats = some s ∧ (s.lossD > 0 ∨ s.avgD > 1000) := by
  unfold nodeHasFailure
  rw [foldl_or_any]
  simp [List.any_eq_true, measurementAnyFailing_iff]

/-- C4: a node present in the window grouping is returned by the
failing-nodes query if and only if some measurement of its window (not
necessarily the latest) contains a probe-location record with loss > 0 or
average RTT > 1000 ms. -/
theorem c4_get_failing_nodes (nodes : List (String × List Measurement))
    (node_id : String) (ms : List Measurement)
    (h : (node_id, ms) ∈ nodes) :
    (node_id, ms) ∈ get_failing_nodes nodes ↔
      ∃ m ∈ ms, ∃ rs, m.results = some rs ∧ ∃ r ∈ rs, ∃ s,
        r.stats = some s ∧ (s.lossD > 0 ∨ s.avgD > 1000) := by
  unfold get_failing_nodes
  rw [List.mem_filter]
  simp only [h, true_and]
  exact nodeHasFailure_iff ms

/-- C4 witness: a node whose older window measurement is healthy but
whose other measurement contains a record with 3% loss is returned by the
query. -/
theorem c4_get_failing_nodes_witness :
    ("n1", [healthyMeasurement, oneFailureMeasurement]) ∈
      get_failing_nodes [("n1", [healthyMeasurement, oneFailureMeasurement])] := by
  refine (c4_get_failing_nodes _ "n1" _ (by simp)).mpr
    ⟨oneFailureMeasurement, by simp,
     [directRecord { loss := some 3, avg := some 80 }, directRecord (okStats 60)],
     rfl,
     directRecord { loss := some 3, avg := some 80 }, by simp,
     { loss := some 3, avg := some 80 }, rfl, Or.inl (by norm_num [Stats.lossD])⟩

/-- C10 (implicit): the chat alert's high-latency selection does not
require zero loss, so a record with both loss > 0 and average RTT >
1000 ms is listed under the Failed Probes section *and* under the High
Latency Probes section of the same alert, and the detailed-alert branch is
taken — the two listings are not mutually exclusive. -/
theorem c10_duplicate_alert (rs : List ProbeRecord) (r : ProbeRecord)
    (hmem : r ∈ rs) (hloss : r.chainStats.lossD > 0)
    (hlat : r.chainStats.avgD > 1000) :
    r ∈ failedSection rs ∧ r ∈ highLatencySection rs ∧
      alertsIssues rs = true := by
  have h1 : r ∈ failedSection rs :=
    List.mem_filter.mpr ⟨hmem, by simpa using hloss⟩
  have h2 : r ∈ highLatencySection rs :=
    List.mem_filter.mpr ⟨hmem, by simpa using hlat⟩
  have hcount : 0 < failedProbesCount rs := by
    unfold failedProbesCount
    exact List.countP_pos_iff.mpr ⟨r, hmem, by simpa using hloss⟩
  refine ⟨h1, h2, ?_⟩
  unfold alertsIssues
  rw [Bool.or_eq_true]
  exact Or.inl (decide_eq_true hcount)

/-- C10 witness: a record with 5% loss and 1500 ms average RTT is in both
sections of the alert. -/
theorem c10_duplicate_alert_witness :
    lossyHighLatencyRecord ∈ failedSection [lossyHighLatencyRecord] ∧
    lossyHighLatencyRecord ∈ highLatencySection [lossyHighLatencyRecord] ∧
    alertsIssues [lossyHighLatencyRecord] = true :=
  c10_duplicate_alert [lossyHighLatencyRecord] lossyHighLatencyRecord
    (by simp) (by decide) (by decide)

end ICNetProbe
